import Mathlib

/-!
Verification development for a trading-alert webhook service.

The definitions below are a shallow embedding of `src/main.py`: the pure
helpers (`to_float`, `to_int`, `normalize_event`, `side_from_payload`,
`auto_fix_sl_tp`, `tick_by_symbol`, `be_is_hit`, `score_bucket`,
`learn_record`) and the stateful `/webhook` handler, modelled as a pure
step function from (server state, timestamp, parsed JSON payload) to
(server state, result).  Python floats are modelled as rationals, Python
dicts as association lists, and timestamps as natural numbers.  Outbound
Telegram messages are out of scope; the observable part of each message
(the reported outcome) is carried in the `Res.note` field.
-/

set_option maxHeartbeats 1000000

/-- Python string characters helpers: drop leading whitespace. -/
def stripLead (cs : List Char) : List Char := cs.dropWhile Char.isWhitespace

/-- Strip whitespace at both ends, modelling Python `str.strip()`. -/
def stripBoth (cs : List Char) : List Char :=
  ((stripLead ((stripLead cs).reverse)).reverse)

/-- Model of Python `str.strip()`. -/
def pyStrip (s : String) : String := String.mk (stripBoth s.toList)

/-- Model of Python `str.lower()`. -/
def pyLower (s : String) : String := String.mk (s.toList.map Char.toLower)

/-- Model of Python `str.upper()`. -/
def pyUpper (s : String) : String := String.mk (s.toList.map Char.toUpper)

/-- Whether the first list is a leading segment of the second. -/
def listHasPre : List Char → List Char → Bool
  | [], _ => true
  | _ :: _, [] => false
  | p :: ps, c :: cs => p == c && listHasPre ps cs

/-- Whether `pat` occurs as a contiguous sublist. -/
def listHasSub (pat : List Char) : List Char → Bool
  | [] => pat.isEmpty
  | c :: cs => listHasPre pat (c :: cs) || listHasSub pat cs

/-- Model of Python `s.startswith(pat)`. -/
def strHasPre (s pat : String) : Bool := listHasPre pat.toList s.toList

/-- Model of Python `pat in s` (substring test). -/
def strContains (s pat : String) : Bool := listHasSub pat.toList s.toList

/-- Model of Python `s.endswith(pat)`. -/
def strEndsIn (s pat : String) : Bool :=
  listHasPre pat.toList.reverse s.toList.reverse

/-- Numeric value of a digit string (most significant first). -/
def digitsVal (cs : List Char) : Nat :=
  cs.foldl (fun a c => 10 * a + (c.toNat - 48)) 0

/-- All characters are decimal digits. -/
def allDigits (cs : List Char) : Bool := cs.all Char.isDigit

/-- Split an optional leading sign; `true` means negative. -/
def takeSign : List Char → Bool × List Char
  | '-' :: t => (true, t)
  | '+' :: t => (false, t)
  | cs => (false, cs)

/-- Parse the exponent part: either empty, or a marker char followed by an
optionally signed digit string. -/
def parseExpPart : List Char → Option Int
  | [] => some 0
  | _ :: ecs =>
    let se := takeSign ecs
    if !se.2.isEmpty && allDigits se.2 then
      some (if se.1 then -(digitsVal se.2 : Int) else (digitsVal se.2 : Int))
    else none

/-- Parse an unsigned mantissa: digits with at most one decimal point and at
least one digit overall.  Returns the digit value with the fraction scaled
in, and the number of fractional digits. -/
def parseMant (cs : List Char) : Option (Nat × Nat) :=
  let ip := cs.takeWhile (fun c => c != '.')
  let rest := cs.dropWhile (fun c => c != '.')
  match rest with
  | [] => if !ip.isEmpty && allDigits ip then some (digitsVal ip, 0) else none
  | _ :: fp =>
    if allDigits ip && allDigits fp && (!ip.isEmpty || !fp.isEmpty) then
      some (digitsVal ip * 10 ^ fp.length + digitsVal fp, fp.length)
    else none

/-- Model of Python's built-in `float(s)` on finite decimal literals
(optional sign, digits, optional fraction, optional exponent).  The special
values `inf`/`nan` and underscore separators are outside the model; the
inputs exercised by the claims are all covered. -/
def parseFloat (s : String) : Option Rat :=
  let cs := s.toList
  let sg := takeSign cs
  let mant := (sg.2).takeWhile (fun c => c != 'e')
  let erest := (sg.2).dropWhile (fun c => c != 'e')
  match parseMant mant, parseExpPart erest with
  | some mv, some ex =>
    let num : Int := if sg.1 then -(mv.1 : Int) else (mv.1 : Int)
    if 0 ≤ ex then some (mkRat (num * ((10 : Int) ^ ex.toNat)) ((10 : Nat) ^ mv.2))
    else some (mkRat num ((10 : Nat) ^ (mv.2 + (-ex).toNat)))
  | _, _ => none

/-- A parsed JSON scalar as Python sees it: `None`, an int, a float
(modelled as a rational), or a string. -/
inductive PyVal : Type
  | none : PyVal
  | int : Int → PyVal
  | float : Rat → PyVal
  | str : String → PyVal
deriving DecidableEq, Repr

/-- The accepted-as-absent literals of `to_float`/`to_int` in `main.py`. -/
def isNullishStr (s : String) : Bool :=
  s == "" || s == "na" || s == "n/a" || s == "null" || s == "none"

/-- `to_float` from `main.py`: `None` and nullish strings give no value,
numbers convert, other strings are parsed as floats, unparseable gives no
value; the function is total (the Python `try/except` never escapes). -/
def to_float : PyVal → Option Rat
  | PyVal.none => none
  | PyVal.int n => some ((n : Rat))
  | PyVal.float q => some q
  | PyVal.str x =>
    let s := pyLower (pyStrip x)
    if isNullishStr s then none else parseFloat s

/-- Truncation toward zero, modelling Python `int(float)`. -/
def pyTrunc (q : Rat) : Int := if q < 0 then -((-q).floor) else q.floor

/-- `to_int` from `main.py`: like `to_float` but truncating via
`int(float(s))`. -/
def to_int : PyVal → Option Int
  | PyVal.none => none
  | PyVal.int n => some n
  | PyVal.float q => some (pyTrunc q)
  | PyVal.str x =>
    let s := pyLower (pyStrip x)
    if isNullishStr s then none else (parseFloat s).map pyTrunc

/-- First-match lookup in an association list, modelling Python
`dict.get`. -/
def lookupA {α β : Type} [DecidableEq α] : List (α × β) → α → Option β
  | [], _ => Option.none
  | (k, v) :: rest, key => if k = key then some v else lookupA rest key

/-- Insert or overwrite a binding, modelling Python `dict[k] = v`. -/
def insertA {α β : Type} [DecidableEq α] : List (α × β) → α → β → List (α × β)
  | [], key, v => [(key, v)]
  | (k, w) :: rest, key, v =>
    if k = key then (key, v) :: rest else (k, w) :: insertA rest key v

/-- Remove all bindings of a key, modelling Python `dict.pop(k, None)`. -/
def eraseA {α β : Type} [DecidableEq α] : List (α × β) → α → List (α × β)
  | [], _ => []
  | (k, w) :: rest, key =>
    if k = key then eraseA rest key else (k, w) :: eraseA rest key

/-- `normalize_event` from `main.py`: strip, uppercase, spaces to
underscores, collapse double underscores (single left-to-right pass, as in
Python `str.replace`). -/
def collapseUU : List Char → List Char
  | [] => []
  | '_' :: '_' :: rest => '_' :: collapseUU rest
  | c :: rest => c :: collapseUU rest

/-- Event-token normalization performed at the top of the webhook. -/
def normalize_event (event : String) : String :=
  String.mk (collapseUU
    (((pyUpper (pyStrip event)).toList).map (fun c => if c == ' ' then '_' else c)))

/-- `side_from_payload` from `main.py`: explicit side field wins, then
suffix/substring conventions on the normalized event token, else `"N/A"`. -/
def side_from_payload (sideField : String) (e : String) : String :=
  let side := pyUpper (pyStrip sideField)
  if side == "BUY" || side == "SELL" then side
  else if strEndsIn e "_BUY" || strContains e "_BUY" then "BUY"
  else if strEndsIn e "_SELL" || strContains e "_SELL" then "SELL"
  else if strContains e "TRAIL_EXIT_LONG" then "BUY"
  else if strContains e "TRAIL_EXIT_SHORT" then "SELL"
  else "N/A"

/-- Event-kind predicates from `main.py` (lines 91-103). -/
def is_watch (e : String) : Bool := e == "WATCH_LONG" || e == "WATCH_SHORT"

/-- `is_ready` from `main.py`. -/
def is_ready (e : String) : Bool := e == "READY_LONG" || e == "READY_SHORT"

/-- `is_entry` from `main.py`. -/
def is_entry (e : String) : Bool :=
  e == "ENTRY" || e == "ENTRY_BUY" || e == "ENTRY_SELL" || strHasPre e "ENTRY"

/-- `is_break_even` from `main.py`. -/
def is_break_even (e : String) : Bool := e == "BREAK_EVEN" || e == "BE_ARM"

/-- `is_trim` from `main.py`. -/
def is_trim (e : String) : Bool := e == "TRIM"

/-- `is_stop_hit` from `main.py`. -/
def is_stop_hit (e : String) : Bool := e == "STOP_HIT"

/-- `is_exit_flip` from `main.py`. -/
def is_exit_flip (e : String) : Bool := e == "EXIT_TREND_FLIP"

/-- `is_scale` from `main.py`. -/
def is_scale (e : String) : Bool := e == "SCALE" || strHasPre e "SCALE"

/-- `is_trail_exit` from `main.py`. -/
def is_trail_exit (e : String) : Bool := strContains e "TRAIL_EXIT"

/-- `is_trail_update` from `main.py`. -/
def is_trail_update (e : String) : Bool := e == "TRAIL_UPDATE"

/-- `auto_fix_sl_tp` from `main.py`: swap stop and target when both are on
the wrong side of the reference price for the direction; otherwise return
them unchanged. -/
def auto_fix_sl_tp (side : String) (price sl tp : Option Rat) :
    Option Rat × Option Rat :=
  match price, sl, tp with
  | some p, some s, some t =>
    if side == "BUY" && decide (p < s) && decide (t < p) then (some t, some s)
    else if side == "SELL" && decide (s < p) && decide (p < t) then (some t, some s)
    else (some s, some t)
  | _, _, _ => (sl, tp)

/-- Environment default `DEFAULT_TICK` (env default "0.25"). -/
def DEFAULT_TICK : Rat := mkRat 1 4

/-- Environment default `BE_EPS_TICKS` (env default "1"). -/
def BE_EPS_TICKS : Rat := 1

/-- `tick_by_symbol` from `main.py`: NQ-family symbols tick 0.25, silver
0.005, else the configured default. -/
def tick_by_symbol (symbol : String) : Rat :=
  let s := pyUpper symbol
  if strContains s "NQ" then mkRat 1 4
  else if strContains s "SIL" then mkRat 1 200
  else DEFAULT_TICK

/-- Rational subtraction spelled out on numerators and denominators (equal
to `a - b`, see `ratSub_eq`); spelled out so that concrete states can be
evaluated by the kernel. -/
def ratSub (a b : Rat) : Rat := mkRat (a.num * b.den - b.num * a.den) (a.den * b.den)

/-- Rational multiplication spelled out on numerators and denominators
(equal to `a * b`, see `ratMul_eq`). -/
def ratMul (a b : Rat) : Rat := mkRat (a.num * b.num) (a.den * b.den)

/-- Python `abs` on a rational (equal to `|q|`, see `ratAbs_eq`). -/
def ratAbs (q : Rat) : Rat := mkRat (q.num.natAbs : Int) q.den

/-- `be_is_hit` from `main.py`: the close is within
`tick × BE_EPS_TICKS` of the entry. -/
def be_is_hit (entry exit_price : Rat) (symbol : String) : Bool :=
  decide (ratAbs (ratSub exit_price entry) ≤ ratMul (tick_by_symbol symbol) BE_EPS_TICKS)

/-- `score_bucket` from `main.py`. -/
def score_bucket (score : Option Rat) : Option String :=
  match score with
  | Option.none => Option.none
  | some s =>
    some (if 80 ≤ s then "A" else if 65 ≤ s then "B"
          else if 50 ≤ s then "C" else "SKIP")

/-- Win/loss tallies in the learning table. -/
structure WL : Type where
  w : Nat
  l : Nat
deriving DecidableEq, Repr

/-- The learning table of `main.py` (`state["learn"]`): the nested
symbol → side → bucket dictionaries, flattened to a map on triples. -/
abbrev Learn : Type := List ((String × String × String) × WL)

/-- `learn_record` from `main.py`: ignore non-directional sides and
score-less trades, otherwise increment the (symbol, side, bucket) tally. -/
def learn_record (learn : Learn) (symbol side : String) (score : Option Rat)
    (win : Bool) : Learn :=
  if side != "BUY" && side != "SELL" then learn
  else
    match score_bucket score with
    | Option.none => learn
    | some b =>
      let k := (symbol, side, b)
      let cur := (lookupA learn k).getD ⟨0, 0⟩
      insertA learn k (if win then ⟨cur.w + 1, cur.l⟩ else ⟨cur.w, cur.l + 1⟩)

/-- Per-symbol win/loss/breakeven counters (`state["stats"][symbol]`). -/
structure Stats : Type where
  wins : Nat
  losses : Nat
  be : Nat
deriving DecidableEq, Repr

/-- A trade record as stored in `state["trades"]` in `main.py`. -/
structure Trade : Type where
  trade_id : String
  symbol : String
  side : String
  tf : String
  entry : Option Rat
  sl : Option Rat
  tp : Option Rat
  be_trigger : Option Rat
  contracts : Option Int
  adds : Int
  score : Option Rat
  be_armed : Bool
  opened_at : Nat
  closed_at : Option Nat
  exit : Option Rat
  result : Option String
  exit_reason : Option String
deriving DecidableEq, Repr

/-- The module-level `state` dictionary of `main.py`. -/
structure ServerState : Type where
  stats : List (String × Stats)
  open_trade : List (String × String)
  trades : List (String × Trade)
  learn : Learn
deriving DecidableEq, Repr

/-- The parsed JSON body of a webhook request: the fields `main.py` reads,
with string fields already stringified and numeric fields as raw scalars. -/
structure Payload : Type where
  event : String
  symbol : String
  tf : String
  side : String
  trade_id : String
  price : PyVal
  entry : PyVal
  sl : PyVal
  tp1 : PyVal
  be_trigger : PyVal
  score : PyVal
  contracts : PyVal
  tp : PyVal
  adds : PyVal
  buyScore : PyVal
  sellScore : PyVal
deriving DecidableEq, Repr

/-- The derived per-request quantities computed at the top of `webhook()`
(normalized event, trimmed symbol, coerced numerics, detected side, chosen
score, auto-fixed stop/target, optional explicit trade id). -/
structure Ctx : Type where
  e : String
  symbol : String
  tf : String
  price : Option Rat
  entry : Option Rat
  sl : Option Rat
  tp : Option Rat
  be_tr : Option Rat
  score_val : Option Rat
  contracts : Option Int
  adds : Option Rat
  side : String
  incoming_trade_id : Option String
deriving DecidableEq, Repr

/-- The observable per-request result: the JSON reply fields plus the
outcome reported in the notification text (`note`). -/
structure Res : Type where
  ok : Bool
  trade_id : Option String
  warning : Option String
  note : Option String
deriving DecidableEq, Repr

/-- The preamble of `webhook()` (lines 188-237 of `main.py`). -/
def mkCtx (p : Payload) : Ctx :=
  let e := normalize_event p.event
  let symbol := pyStrip p.symbol
  let tf := pyStrip p.tf
  let price := to_float p.price
  let entry0 := to_float p.entry
  let sl0 := to_float p.sl
  let tp1 := to_float p.tp1
  let be_tr := to_float p.be_trigger
  let score := to_float p.score
  let contracts := to_int p.contracts
  let tp_old := to_float p.tp
  let adds := to_float p.adds
  let buyScore := to_float p.buyScore
  let sellScore := to_float p.sellScore
  let side := side_from_payload p.side e
  let score_val :=
    match score with
    | some s => some s
    | Option.none =>
      if side == "BUY" then buyScore
      else if side == "SELL" then sellScore else Option.none
  let tp0 := match tp1 with | some t => some t | Option.none => tp_old
  let entry := if entry0.isNone && is_entry e then price else entry0
  let fixed := auto_fix_sl_tp side entry sl0 tp0
  { e := e, symbol := symbol, tf := tf, price := price, entry := entry,
    sl := fixed.1, tp := fixed.2, be_tr := be_tr, score_val := score_val,
    contracts := contracts, adds := adds, side := side,
    incoming_trade_id :=
      if pyStrip p.trade_id == "" then Option.none else some (pyStrip p.trade_id) }

/-- Per-symbol counters with the zero default (reading
`state["stats"]`). -/
def getStats (st : ServerState) (symbol : String) : Stats :=
  (lookupA st.stats symbol).getD ⟨0, 0, 0⟩

/-- Lines 222-223 of `main.py`: create a zeroed stats entry for an unseen
symbol. -/
def ensureStats (st : ServerState) (symbol : String) : ServerState :=
  match lookupA st.stats symbol with
  | some _ => st
  | Option.none => { st with stats := insertA st.stats symbol ⟨0, 0, 0⟩ }

/-- Replace a symbol's counters by an updated value. -/
def bumpStat (st : ServerState) (symbol : String) (f : Stats → Stats) :
    ServerState :=
  { st with stats := insertA st.stats symbol (f (getStats st symbol)) }

/-- Which counter a given outcome string increments. -/
def statUpd (o : String) (x : Stats) : Stats :=
  if o == "WIN" then { x with wins := x.wins + 1 }
  else if o == "BREAKEVEN" then { x with be := x.be + 1 }
  else { x with losses := x.losses + 1 }

/-- Trade resolution shared by every close/management branch of
`webhook()`: explicit `trade_id` if present, else the open-trade index
entry for the symbol; then the trade record for that id. -/
def resolve_trade (st : ServerState) (c : Ctx) : Option String × Option Trade :=
  let tidOpt :=
    match c.incoming_trade_id with
    | some i => some i
    | Option.none => lookupA st.open_trade c.symbol
  (tidOpt,
    match tidOpt with
    | some tid => lookupA st.trades tid
    | Option.none => Option.none)

/-- The three trade-closing branches of `webhook()`. -/
inductive CloseKind : Type
  | stop : CloseKind
  | flip : CloseKind
  | trail : CloseKind
deriving DecidableEq, Repr

/-- Outcome classification of the three close branches: STOP_HIT counts
breakeven only when armed and within band, else a loss; EXIT_TREND_FLIP
tests the directional win first and the breakeven band only on the losing
side; TRAIL_EXIT tests the breakeven band first. -/
def classify (k : CloseKind) (t : Trade) (entry_px pr : Rat) (symbol : String) :
    String × Option Bool :=
  match k with
  | CloseKind.stop =>
    if t.be_armed && be_is_hit entry_px pr symbol then ("BREAKEVEN", Option.none)
    else ("LOSS", some false)
  | CloseKind.flip =>
    if (if t.side == "BUY" then decide (entry_px < pr) else decide (pr < entry_px)) then
      ("WIN", some true)
    else if be_is_hit entry_px pr symbol then ("BREAKEVEN", Option.none)
    else ("LOSS", some false)
  | CloseKind.trail =>
    if be_is_hit entry_px pr symbol then ("BREAKEVEN", Option.none)
    else if (if t.side == "BUY" then decide (entry_px < pr) else decide (pr < entry_px)) then
      ("WIN", some true)
    else ("LOSS", some false)

/-- The counter bump matching a close outcome. -/
def bumpFor (st : ServerState) (symbol o : String) : ServerState :=
  bumpStat st symbol (statUpd o)

/-- The "Result:" token of the no-linked-trade notification per branch. -/
def noLinkNote (k : CloseKind) : String :=
  match k with
  | CloseKind.flip => "no linked trade"
  | _ => "N/A (no linked ENTRY)"

/-- Whether a result reports the missing-linkage outcome. -/
def isNoLinkNote (r : Res) : Bool :=
  r.note == some "N/A (no linked ENTRY)" || r.note == some "no linked trade"

/-- The shared tail of the three close branches: stamp close fields on the
trade, record the learning sample for decided outcomes, and pop the
symbol's open-trade index entry. -/
def finishClose (st1 : ServerState) (now : Nat) (c : Ctx) (tid : String)
    (t : Trade) (pr : Rat) (o : String) (w : Option Bool) : ServerState × Res :=
  let t2 := { t with closed_at := some now, exit := some pr,
                     result := some o, exit_reason := some c.e }
  let st2 := { st1 with trades := insertA st1.trades tid t2 }
  let st3 :=
    match w with
    | some b => { st2 with learn := learn_record st2.learn c.symbol t.side t.score b }
    | Option.none => st2
  let st4 := { st3 with open_trade := eraseA st3.open_trade c.symbol }
  (st4, { ok := true, trade_id := some tid, warning := Option.none, note := some o })

/-- A close branch of `webhook()` (STOP_HIT lines 374-423, EXIT_TREND_FLIP
lines 428-477, TRAIL_EXIT lines 514-570): resolve the trade; without a
linked trade, a known entry price and a close price, report the
no-linked-entry outcome and leave the state alone; otherwise classify and
close. -/
def closeStep (k : CloseKind) (st : ServerState) (now : Nat) (c : Ctx) :
    ServerState × Res :=
  match resolve_trade st c with
  | (some tid, some t) =>
    match t.entry, c.price with
    | some entry_px, some pr =>
      let cl := classify k t entry_px pr c.symbol
      finishClose (bumpFor st c.symbol cl.1) now c tid t pr cl.1 cl.2
    | _, _ =>
      (st, { ok := true, trade_id := some tid, warning := Option.none,
             note := some (noLinkNote k) })
  | (tidOpt, _) =>
    (st, { ok := true, trade_id := tidOpt, warning := Option.none,
           note := some (noLinkNote k) })

/-- The ENTRY branch of `webhook()` (lines 281-327). -/
def entryStep (st : ServerState) (now : Nat) (c : Ctx) : ServerState × Res :=
  let tid :=
    match c.incoming_trade_id with
    | some i => i
    | Option.none => c.symbol ++ "-" ++ toString now
  let t : Trade :=
    { trade_id := tid, symbol := c.symbol, side := c.side, tf := c.tf,
      entry := c.entry, sl := c.sl, tp := c.tp, be_trigger := c.be_tr,
      contracts := c.contracts,
      adds := (match c.adds with | some a => pyTrunc a | Option.none => 0),
      score := c.score_val, be_armed := false, opened_at := now,
      closed_at := Option.none, exit := Option.none, result := Option.none,
      exit_reason := Option.none }
  ({ st with open_trade := insertA st.open_trade c.symbol tid,
             trades := insertA st.trades tid t },
   { ok := true, trade_id := some tid, warning := Option.none, note := Option.none })

/-- The BREAK_EVEN branch of `webhook()` (lines 332-350). -/
def breakEvenStep (st : ServerState) (c : Ctx) : ServerState × Res :=
  match resolve_trade st c with
  | (some tid, some t) =>
    ({ st with trades := insertA st.trades tid ({ t with be_armed := true }) },
     { ok := true, trade_id := some tid, warning := Option.none, note := Option.none })
  | (_, _) =>
    (st, { ok := true, trade_id := Option.none,
           warning := some "be_without_open_trade", note := Option.none })

/-- The TRIM branch of `webhook()` (lines 355-369). -/
def trimStep (st : ServerState) (c : Ctx) : ServerState × Res :=
  match resolve_trade st c with
  | (some tid, some _) =>
    (st, { ok := true, trade_id := some tid, warning := Option.none, note := Option.none })
  | (_, _) =>
    (st, { ok := true, trade_id := Option.none,
           warning := some "trim_without_open_trade", note := Option.none })

/-- The SCALE branch of `webhook()` (lines 482-503). -/
def scaleStep (st : ServerState) (c : Ctx) : ServerState × Res :=
  match resolve_trade st c with
  | (some tid, some t) =>
    let t2 := { t with adds := (match c.adds with | some a => pyTrunc a | Option.none => t.adds) }
    ({ st with trades := insertA st.trades tid t2 },
     { ok := true, trade_id := some tid, warning := Option.none, note := Option.none })
  | (_, _) =>
    (st, { ok := true, trade_id := Option.none,
           warning := some "scale_without_open_trade", note := Option.none })

/-- The TRAIL_UPDATE branch of `webhook()` (lines 505-512). -/
def trailUpdateStep (st : ServerState) (c : Ctx) : ServerState × Res :=
  match resolve_trade st c with
  | (some tid, some t) =>
    let t2 := match c.sl with | some s => { t with sl := some s } | Option.none => t
    ({ st with trades := insertA st.trades tid t2 },
     { ok := true, trade_id := some tid, warning := Option.none, note := Option.none })
  | (_, _) =>
    (st, { ok := true, trade_id := Option.none,
           warning := some "trail_update_without_trade", note := Option.none })

/-- The dispatch order of the `if`-chain in `webhook()`. -/
inductive Branch : Type
  | watch : Branch
  | ready : Branch
  | entry : Branch
  | breakEven : Branch
  | trim : Branch
  | stopHit : Branch
  | exitFlip : Branch
  | scale : Branch
  | trailUpdate : Branch
  | trailExit : Branch
  | unknown : Branch
deriving DecidableEq, Repr

/-- Which branch of `webhook()` handles a normalized event token, in the
source's guard order. -/
def selectBranch (e : String) : Branch :=
  if is_watch e then Branch.watch
  else if is_ready e then Branch.ready
  else if is_entry e then Branch.entry
  else if is_break_even e then Branch.breakEven
  else if is_trim e then Branch.trim
  else if is_stop_hit e then Branch.stopHit
  else if is_exit_flip e then Branch.exitFlip
  else if is_scale e then Branch.scale
  else if is_trail_update e then Branch.trailUpdate
  else if is_trail_exit e then Branch.trailExit
  else Branch.unknown

/-- The plain `{"ok": True}` reply. -/
def plainOk : Res :=
  { ok := true, trade_id := Option.none, warning := Option.none, note := Option.none }

/-- Run the selected branch of `webhook()`. WATCH and READY only send a
notification; the unknown-event fallback (lines 575-576) likewise leaves
the state alone and replies ok. -/
def runBranch : Branch → ServerState → Nat → Ctx → ServerState × Res
  | Branch.watch, st, _, _ => (st, plainOk)
  | Branch.ready, st, _, _ => (st, plainOk)
  | Branch.entry, st, now, c => entryStep st now c
  | Branch.breakEven, st, _, c => breakEvenStep st c
  | Branch.trim, st, _, c => trimStep st c
  | Branch.stopHit, st, now, c => closeStep CloseKind.stop st now c
  | Branch.exitFlip, st, now, c => closeStep CloseKind.flip st now c
  | Branch.scale, st, _, c => scaleStep st c
  | Branch.trailUpdate, st, _, c => trailUpdateStep st c
  | Branch.trailExit, st, now, c => closeStep CloseKind.trail st now c
  | Branch.unknown, st, _, _ => (st, plainOk)

/-- The full `webhook()` handler of `main.py` as a pure step function. -/
def webhook (st : ServerState) (now : Nat) (p : Payload) : ServerState × Res :=
  runBranch (selectBranch (mkCtx p).e) (ensureStats st (mkCtx p).symbol) now (mkCtx p)

/-- The link-failure condition of the close branches: no resolved trade, or
a resolved trade without entry price, or a close event without price. -/
def no_link (st : ServerState) (c : Ctx) : Bool :=
  match resolve_trade st c with
  | (_, Option.none) => true
  | (_, some t) => t.entry.isNone || c.price.isNone

/-- The close branches of the dispatcher, as a predicate on a payload's
normalized event token. -/
def closeBranchOf (p : Payload) : Option CloseKind :=
  match selectBranch (mkCtx p).e with
  | Branch.stopHit => some CloseKind.stop
  | Branch.exitFlip => some CloseKind.flip
  | Branch.trailExit => some CloseKind.trail
  | _ => Option.none

/-- Modelled from the spec: the OnlineClassifier component is not present in
the files under `src/`; its per-(instrument, session) state is a weight
vector of fixed dimension 5 (bias + feature weights) and a sample count,
created lazily with zero weights and count 0. -/
structure ClsState : Type where
  w : Fin 5 → ℝ
  n : Nat

/-- Modelled from the spec: the numerically stable sigmoid, branching on the
sign of the input so the exponential never overflows. -/
noncomputable def sigmoid (z : ℝ) : ℝ :=
  if 0 ≤ z then 1 / (1 + Real.exp (-z)) else Real.exp z / (1 + Real.exp z)

/-- Dot product of a weight vector with a feature vector. -/
noncomputable def dotw (w x : Fin 5 → ℝ) : ℝ := ∑ i, w i * x i

/-- The lazily-created zero classifier state. -/
def zeroCls : ClsState := ⟨fun _ => 0, 0⟩

/-- Modelled from the spec: `predict(key, x)` returns
`(sigmoid(weights · x), sampleCount)`, lazily initializing a zero weight
vector for unseen keys. -/
noncomputable def predict (cls : List ((String × String) × ClsState))
    (key : String × String) (x : Fin 5 → ℝ) : ℝ × Nat :=
  let s := (lookupA cls key).getD zeroCls
  (sigmoid (dotw s.w x), s.n)

/-- The absent JSON value. -/
def pvn : PyVal := PyVal.none

/-- A payload with every optional field absent. -/
def basePayload : Payload :=
  { event := "", symbol := "NQ", tf := "5", side := "", trade_id := "",
    price := pvn, entry := pvn, sl := pvn, tp1 := pvn, be_trigger := pvn,
    score := pvn, contracts := pvn, tp := pvn, adds := pvn,
    buyScore := pvn, sellScore := pvn }

/-- The initial empty server state. -/
def st0 : ServerState := { stats := [], open_trade := [], trades := [], learn := [] }

/-- An ENTRY_BUY event for NQ at price 100 with explicit id T1. -/
def pEntry : Payload :=
  { basePayload with event := "ENTRY_BUY", trade_id := "T1", price := PyVal.str "100" }

/-- State after opening T1. -/
def s1 : ServerState := (webhook st0 1 pEntry).1

/-- A STOP_HIT event at price 90 carrying the explicit id T1. -/
def pStop : Payload :=
  { basePayload with event := "STOP_HIT", trade_id := "T1", price := PyVal.str "90" }

/-- State after the first STOP_HIT closes T1. -/
def s2 : ServerState := (webhook s1 2 pStop).1

/-- State after replaying the same STOP_HIT on the already-closed T1. -/
def s3 : ServerState := (webhook s2 3 pStop).1

/-- An open BUY trade on NQ with entry 100. -/
def tNQ : Trade :=
  { trade_id := "T1", symbol := "NQ", side := "BUY", tf := "5",
    entry := some 100, sl := Option.none, tp := Option.none,
    be_trigger := Option.none, contracts := Option.none, adds := 0,
    score := Option.none, be_armed := false, opened_at := 1,
    closed_at := Option.none, exit := Option.none, result := Option.none,
    exit_reason := Option.none }

/-- Server state with the open BUY trade T1 linked for NQ. -/
def stNQ : ServerState :=
  { stats := [("NQ", { wins := 0, losses := 0, be := 0 })],
    open_trade := [("NQ", "T1")], trades := [("T1", tNQ)], learn := [] }

/-- An EXIT_TREND_FLIP close at 100.1, one tenth of a point from entry. -/
def pFlip : Payload :=
  { basePayload with event := "EXIT_TREND_FLIP", price := PyVal.str "100.1" }

/-- A TRAIL_EXIT close at 100.1. -/
def pTrailBE : Payload :=
  { basePayload with event := "TRAIL_EXIT", price := PyVal.str "100.1" }

/-- The same open trade with the stored side left undetected ("N/A"). -/
def tNA : Trade := { tNQ with side := "N/A" }

/-- Server state with the side-less open trade linked for NQ. -/
def stNA : ServerState :=
  { stats := [("NQ", { wins := 0, losses := 0, be := 0 })],
    open_trade := [("NQ", "T1")], trades := [("T1", tNA)], learn := [] }

/-- A TRAIL_EXIT close at 90, far below entry. -/
def pTrail : Payload :=
  { basePayload with event := "TRAIL_EXIT", price := PyVal.str "90" }

/-- A STOP_HIT close on timeframe 15 (the open trade was on timeframe 5),
with no explicit trade id. -/
def pStop15 : Payload :=
  { basePayload with event := "STOP_HIT", tf := "15", price := PyVal.str "90" }

/-- A payload whose event token matches no recognized kind. -/
def pUnknown : Payload := { basePayload with event := "HELLO" }

/-- A STOP_HIT close with no explicit id against an empty ledger. -/
def pStopNoId : Payload :=
  { basePayload with event := "STOP_HIT", price := PyVal.str "90" }

theorem ratSub_eq (a b : Rat) : ratSub a b = a - b := by
  unfold ratSub
  rw [Rat.mkRat_eq_div]
  have ha : ((a.den : Rat)) ≠ 0 := Nat.cast_ne_zero.mpr a.den_nz
  have hb : ((b.den : Rat)) ≠ 0 := Nat.cast_ne_zero.mpr b.den_nz
  conv_rhs => rw [← Rat.num_div_den a, ← Rat.num_div_den b]
  field_simp
  ring

theorem ratMul_eq (a b : Rat) : ratMul a b = a * b := by
  unfold ratMul
  rw [Rat.mkRat_eq_div]
  have ha : ((a.den : Rat)) ≠ 0 := Nat.cast_ne_zero.mpr a.den_nz
  have hb : ((b.den : Rat)) ≠ 0 := Nat.cast_ne_zero.mpr b.den_nz
  conv_rhs => rw [← Rat.num_div_den a, ← Rat.num_div_den b]
  field_simp

theorem ratAbs_eq (q : Rat) : ratAbs q = |q| := by
  unfold ratAbs
  rcases le_or_lt 0 q.num with h | h
  · rw [Int.natAbs_of_nonneg h, Rat.mkRat_self, abs_of_nonneg (Rat.num_nonneg.mp h)]
  · have habs : (q.num.natAbs : Int) = -q.num := by
      omega
    have hq : q < 0 := Rat.num_neg.mp h
    rw [habs, abs_of_neg hq]
    have h1 : (-q).num = -q.num := Rat.neg_num q
    have h2 : (-q).den = q.den := Rat.neg_den q
    rw [← h1, ← h2, Rat.mkRat_self]

theorem lookupA_insertA_self {α β : Type} [DecidableEq α]
    (l : List (α × β)) (k : α) (v : β) : lookupA (insertA l k v) k = some v := by
  induction l with
  | nil => simp [insertA, lookupA]
  | cons hd tl ih =>
    obtain ⟨k0, v0⟩ := hd
    by_cases h : k0 = k
    · simp [insertA, lookupA, h]
    · simp [insertA, lookupA, h, ih]

theorem lookupA_insertA_of_ne {α β : Type} [DecidableEq α]
    (l : List (α × β)) (k k2 : α) (v : β) (h : k2 ≠ k) :
    lookupA (insertA l k v) k2 = lookupA l k2 := by
  induction l with
  | nil => simp [insertA, lookupA, Ne.symm h]
  | cons hd tl ih =>
    obtain ⟨k0, v0⟩ := hd
    by_cases h0 : k0 = k
    · subst h0
      simp [insertA, lookupA, Ne.symm h]
    · by_cases h2 : k0 = k2
      · subst h2
        simp [insertA, lookupA, h0]
      · simp [insertA, lookupA, h0, h2, ih]

theorem lookupA_eraseA_self {α β : Type} [DecidableEq α]
    (l : List (α × β)) (k : α) : lookupA (eraseA l k) k = none := by
  induction l with
  | nil => simp [eraseA, lookupA]
  | cons hd tl ih =>
    obtain ⟨k0, v0⟩ := hd
    by_cases h : k0 = k
    · simpa [eraseA, lookupA, h] using ih
    · simpa [eraseA, lookupA, h] using ih

theorem lookupA_eraseA_of_ne {α β : Type} [DecidableEq α]
    (l : List (α × β)) (k k2 : α) (h : k2 ≠ k) :
    lookupA (eraseA l k) k2 = lookupA l k2 := by
  induction l with
  | nil => simp [eraseA, lookupA]
  | cons hd tl ih =>
    obtain ⟨k0, v0⟩ := hd
    by_cases h0 : k0 = k
    · subst h0
      simp [eraseA, lookupA, Ne.symm h, ih]
    · by_cases h2 : k0 = k2
      · subst h2
        simp [eraseA, lookupA, h0]
      · simp [eraseA, lookupA, h0, h2, ih]

theorem ensureStats_open_trade (st : ServerState) (s : String) :
    (ensureStats st s).open_trade = st.open_trade := by
  unfold ensureStats
  cases lookupA st.stats s <;> rfl

theorem ensureStats_trades (st : ServerState) (s : String) :
    (ensureStats st s).trades = st.trades := by
  unfold ensureStats
  cases lookupA st.stats s <;> rfl

theorem ensureStats_learn (st : ServerState) (s : String) :
    (ensureStats st s).learn = st.learn := by
  unfold ensureStats
  cases lookupA st.stats s <;> rfl

theorem getStats_ensureStats (st : ServerState) (s sym : String) :
    getStats (ensureStats st s) sym = getStats st sym := by
  unfold ensureStats
  cases h : lookupA st.stats s with
  | none =>
    by_cases hsym : sym = s
    · subst hsym
      simp [getStats, lookupA_insertA_self, h]
    · simp [getStats, lookupA_insertA_of_ne _ _ _ _ hsym]
  | some v => rfl

theorem resolve_ensureStats (st : ServerState) (s : String) (c : Ctx) :
    resolve_trade (ensureStats st s) c = resolve_trade st c := by
  unfold resolve_trade
  rw [ensureStats_open_trade, ensureStats_trades]

theorem no_link_ensureStats (st : ServerState) (s : String) (c : Ctx) :
    no_link (ensureStats st s) c = no_link st c := by
  unfold no_link
  rw [resolve_ensureStats]

theorem bumpFor_open_trade (st : ServerState) (s o : String) :
    (bumpFor st s o).open_trade = st.open_trade := rfl

theorem bumpFor_trades (st : ServerState) (s o : String) :
    (bumpFor st s o).trades = st.trades := rfl

theorem bumpFor_learn (st : ServerState) (s o : String) :
    (bumpFor st s o).learn = st.learn := rfl

theorem getStats_bumpFor_self (st : ServerState) (s o : String) :
    getStats (bumpFor st s o) s = statUpd o (getStats st s) := by
  simp [bumpFor, bumpStat, getStats, lookupA_insertA_self]

theorem getStats_bumpFor_of_ne (st : ServerState) (s o sym : String)
    (h : sym ≠ s) : getStats (bumpFor st s o) sym = getStats st sym := by
  simp [bumpFor, bumpStat, getStats, lookupA_insertA_of_ne _ _ _ _ h]

theorem finishClose_stats (st1 : ServerState) (now : Nat) (c : Ctx)
    (tid : String) (t : Trade) (pr : Rat) (o : String) (w : Option Bool) :
    (finishClose st1 now c tid t pr o w).1.stats = st1.stats := by
  cases w <;> rfl

theorem finishClose_open_trade (st1 : ServerState) (now : Nat) (c : Ctx)
    (tid : String) (t : Trade) (pr : Rat) (o : String) (w : Option Bool) :
    (finishClose st1 now c tid t pr o w).1.open_trade =
      eraseA st1.open_trade c.symbol := by
  cases w <;> rfl

theorem finishClose_learn_none (st1 : ServerState) (now : Nat) (c : Ctx)
    (tid : String) (t : Trade) (pr : Rat) (o : String) :
    (finishClose st1 now c tid t pr o Option.none).1.learn = st1.learn := rfl

theorem finishClose_res (st1 : ServerState) (now : Nat) (c : Ctx)
    (tid : String) (t : Trade) (pr : Rat) (o : String) (w : Option Bool) :
    (finishClose st1 now c tid t pr o w).2 =
      { ok := true, trade_id := some tid, warning := Option.none, note := some o } := by
  cases w <;> rfl

theorem getStats_finishClose (st1 : ServerState) (now : Nat) (c : Ctx)
    (tid : String) (t : Trade) (pr : Rat) (o : String) (w : Option Bool)
    (sym : String) :
    getStats (finishClose st1 now c tid t pr o w).1 sym = getStats st1 sym := by
  unfold getStats
  rw [finishClose_stats]

theorem closeStep_of_noLink (k : CloseKind) (st : ServerState) (now : Nat)
    (c : Ctx) (h : no_link st c = true) :
    closeStep k st now c =
      (st, { ok := true, trade_id := (resolve_trade st c).1,
             warning := Option.none, note := some (noLinkNote k) }) := by
  unfold no_link at h
  unfold closeStep
  rcases hr : resolve_trade st c with ⟨tidOpt, tOpt⟩
  rw [hr] at h
  cases tidOpt with
  | none =>
    cases tOpt with
    | none => rfl
    | some t =>
      cases he : t.entry with
      | none => rfl
      | some v =>
        cases hp : c.price with
        | none => rfl
        | some pv => simp [he, hp] at h
  | some tid =>
    cases tOpt with
    | none => rfl
    | some t =>
      cases he : t.entry with
      | none => simp [he]
      | some v =>
        cases hp : c.price with
        | none => simp [he, hp]
        | some pv => simp [he, hp] at h

theorem closeStep_of_link (k : CloseKind) (st : ServerState) (now : Nat)
    (c : Ctx) (tid : String) (t : Trade) (entry_px pr : Rat)
    (hr : resolve_trade st c = (some tid, some t))
    (he : t.entry = some entry_px) (hp : c.price = some pr) :
    closeStep k st now c =
      finishClose (bumpFor st c.symbol (classify k t entry_px pr c.symbol).1)
        now c tid t pr (classify k t entry_px pr c.symbol).1
        (classify k t entry_px pr c.symbol).2 := by
  unfold closeStep
  rw [hr]
  simp [he, hp]


theorem webhook_eq_closeStep (st : ServerState) (now : Nat) (p : Payload)
    (k : CloseKind) (hk : closeBranchOf p = some k) :
    webhook st now p =
      closeStep k (ensureStats st (mkCtx p).symbol) now (mkCtx p) := by
  unfold closeBranchOf at hk
  unfold webhook
  cases hb : selectBranch (mkCtx p).e <;> rw [hb] at hk <;>
    simp at hk <;> rw [← hk] <;> rfl

/-- Frame property of a close branch that fails to link: the reply is ok,
the missing-linkage outcome is reported, and the four state components are
untouched (up to the zero-initialized stats entry for the symbol, which
leaves every symbol's counters unchanged). -/
theorem webhook_noLink_frame (st : ServerState) (now : Nat) (p : Payload)
    (k : CloseKind) (hk : closeBranchOf p = some k)
    (h : no_link st (mkCtx p) = true) :
    (webhook st now p).1.open_trade = st.open_trade ∧
    (webhook st now p).1.trades = st.trades ∧
    (webhook st now p).1.learn = st.learn ∧
    (∀ sym, getStats (webhook st now p).1 sym = getStats st sym) ∧
    (webhook st now p).2.ok = true ∧
    isNoLinkNote (webhook st now p).2 = true := by
  rw [webhook_eq_closeStep st now p k hk]
  rw [closeStep_of_noLink k _ now (mkCtx p)
    (by rw [no_link_ensureStats]; exact h)]
  refine ⟨ensureStats_open_trade st _, ensureStats_trades st _,
    ensureStats_learn st _, fun sym => getStats_ensureStats st _ sym, rfl, ?_⟩
  cases k <;> rfl

theorem parseFloat_nullish (s : String) (h : isNullishStr s = true) :
    parseFloat s = Option.none := by
  unfold isNullishStr at h
  simp only [Bool.or_eq_true, beq_iff_eq] at h
  rcases h with (((h | h) | h) | h) | h <;> subst h <;> decide

/-- Claim C4: numeric coercion never raises: `None` and the accepted
no-value literals (empty string, case-insensitive na, n/a, none) give no
value; valid numeric-like strings, with surrounding whitespace, parse to the
corresponding value; every other unparseable string gives no value; and on
every input `to_float` produces either no value or some value (it is a
total function). -/
theorem C4_numeric_coercion :
    (to_float PyVal.none = Option.none) ∧
    (∀ s : String, isNullishStr (pyLower (pyStrip s)) = true →
      to_float (PyVal.str s) = Option.none) ∧
    (to_float (PyVal.str "") = Option.none ∧
     to_float (PyVal.str "NA") = Option.none ∧
     to_float (PyVal.str "N/A") = Option.none ∧
     to_float (PyVal.str "None") = Option.none ∧
     to_float (PyVal.str "nA") = Option.none) ∧
    (to_float (PyVal.str "12.5") = some (mkRat 25 2) ∧
     to_float (PyVal.str "  7 ") = some 7 ∧
     to_float (PyVal.str "-3") = some (-3)) ∧
    (∀ (s : String) (q : Rat), parseFloat (pyLower (pyStrip s)) = some q →
      to_float (PyVal.str s) = some q) ∧
    (∀ s : String, parseFloat (pyLower (pyStrip s)) = Option.none →
      to_float (PyVal.str s) = Option.none) ∧
    (∀ v : PyVal, to_float v = Option.none ∨ ∃ q, to_float v = some q) := by
  refine ⟨rfl, ?_, by decide, by decide, ?_, ?_, ?_⟩
  · intro s h
    unfold to_float
    simp only [h, if_true]
  · intro s q h
    unfold to_float
    by_cases hn : isNullishStr (pyLower (pyStrip s)) = true
    · rw [parseFloat_nullish _ hn] at h
      exact absurd h (by simp)
    · simp only [Bool.not_eq_true] at hn
      simp only [hn, Bool.false_eq_true, if_false]
      exact h
  · intro s h
    unfold to_float
    by_cases hn : isNullishStr (pyLower (pyStrip s)) = true
    · simp only [hn, if_true]
    · simp only [Bool.not_eq_true] at hn
      simp only [hn, Bool.false_eq_true, if_false]
      exact h
  · intro v
    cases hv : to_float v with
    | none => exact Or.inl rfl
    | some q => exact Or.inr ⟨q, rfl⟩

/-- Witness for C4 at concrete inputs: a whitespace-padded case variant of
n/a gives no value, and an unparseable word gives no value. -/
theorem C4_witness :
    to_float (PyVal.str " N/a ") = Option.none ∧
    to_float (PyVal.str "abc") = Option.none :=
  ⟨C4_numeric_coercion.2.1 " N/a " (by decide),
   C4_numeric_coercion.2.2.2.2.2.1 "abc" (by decide)⟩

/-- Claim C7 counterexample: a BUY event with price 100, stop 99 and target
99.5 has its target on the wrong side of the price (99.5 < 100) while the
stop is on the correct side; `auto_fix_sl_tp` returns both unchanged — no
target is recomputed from the risk distance and no reward:risk multiple
exists in the code. -/
theorem C7_counterexample :
    auto_fix_sl_tp "BUY" (some 100) (some 99) (some (mkRat 199 2)) =
      (some 99, some (mkRat 199 2)) ∧
    (mkRat 199 2 : Rat) < 100 ∧ (99 : Rat) < 100 := by decide

/-- Claim C7 amended: `auto_fix_sl_tp` never invents a value — its output is
always either the input pair or the swapped pair; the swap happens exactly
when price, stop and target are all present and both stop and target are
strictly on the wrong side of the price for the direction; in every other
case (including a target that is wrong while the stop is right, and any
side other than BUY/SELL) the pair is returned unchanged. -/
theorem C7_amended_swap_only (side : String) (price sl tp : Option Rat) :
    (auto_fix_sl_tp side price sl tp = (sl, tp) ∨
     auto_fix_sl_tp side price sl tp = (tp, sl)) ∧
    (∀ p s t, price = some p → sl = some s → tp = some t →
      side = "BUY" → p < s → t < p →
      auto_fix_sl_tp side price sl tp = (tp, sl)) ∧
    (∀ p s t, price = some p → sl = some s → tp = some t →
      side = "SELL" → s < p → p < t →
      auto_fix_sl_tp side price sl tp = (tp, sl)) ∧
    (∀ p s t, price = some p → sl = some s → tp = some t →
      ¬(side = "BUY" ∧ p < s ∧ t < p) → ¬(side = "SELL" ∧ s < p ∧ p < t) →
      auto_fix_sl_tp side price sl tp = (sl, tp)) ∧
    (price = Option.none ∨ sl = Option.none ∨ tp = Option.none →
      auto_fix_sl_tp side price sl tp = (sl, tp)) := by
  refine ⟨?_, ?_, ?_, ?_, ?_⟩
  · unfold auto_fix_sl_tp
    cases price with
    | none => exact Or.inl rfl
    | some p =>
      cases sl with
      | none => exact Or.inl rfl
      | some s =>
        cases tp with
        | none => exact Or.inl rfl
        | some t =>
          by_cases h1 : (side == "BUY" && decide (p < s) && decide (t < p)) = true
          · refine Or.inr ?_
            simp only [h1, if_true]
          · simp only [Bool.not_eq_true] at h1
            by_cases h2 : (side == "SELL" && decide (s < p) && decide (p < t)) = true
            · refine Or.inr ?_
              simp only [h1, Bool.false_eq_true, if_false, h2, if_true]
            · refine Or.inl ?_
              simp only [Bool.not_eq_true] at h2
              simp only [h1, h2, Bool.false_eq_true, if_false]
  · intro p s t hp hs ht hside h1 h2
    subst hp; subst hs; subst ht; subst hside
    simp [auto_fix_sl_tp, h1, h2]
  · intro p s t hp hs ht hside h1 h2
    subst hp; subst hs; subst ht; subst hside
    simp [auto_fix_sl_tp, h1, h2]
  · intro p s t hp hs ht h1 h2
    subst hp; subst hs; subst ht
    unfold auto_fix_sl_tp
    have hb1 : (side == "BUY" && decide (p < s) && decide (t < p)) = false := by
      rcases Bool.eq_false_or_eq_true (side == "BUY" && decide (p < s) && decide (t < p)) with h | h
      · simp only [Bool.and_eq_true, beq_iff_eq, decide_eq_true_eq] at h
        exact absurd ⟨h.1.1, h.1.2, h.2⟩ h1
      · exact h
    have hb2 : (side == "SELL" && decide (s < p) && decide (p < t)) = false := by
      rcases Bool.eq_false_or_eq_true (side == "SELL" && decide (s < p) && decide (p < t)) with h | h
      · simp only [Bool.and_eq_true, beq_iff_eq, decide_eq_true_eq] at h
        exact absurd ⟨h.1.1, h.1.2, h.2⟩ h2
      · exact h
    simp only [hb1, hb2, Bool.false_eq_true, if_false]
  · intro h
    unfold auto_fix_sl_tp
    rcases h with h | h | h <;> subst h
    · rfl
    · cases price <;> rfl
    · cases price <;> cases sl <;> rfl

/-- Witness for C7 amended: the genuinely transposed BUY pair
(stop 101 above price 100, target 98 below) is swapped. -/
theorem C7_witness :
    auto_fix_sl_tp "BUY" (some 100) (some 101) (some 98) = (some 98, some 101) :=
  (C7_amended_swap_only "BUY" (some 100) (some 101) (some 98)).2.1
    100 101 98 rfl rfl rfl rfl (by norm_num) (by norm_num)

/-- Claim C8: the stable sigmoid is strictly within (0,1) for every input,
and `predict` on a fresh (instrument, session) key — zero weight vector,
sample count 0 — returns probability exactly 1/2 with count 0. -/
theorem C8_sigmoid_predict :
    (∀ z : ℝ, 0 < sigmoid z ∧ sigmoid z < 1) ∧
    (∀ (cls : List ((String × String) × ClsState)) (key : String × String)
       (x : Fin 5 → ℝ), lookupA cls key = Option.none →
      predict cls key x = (1 / 2, 0)) := by
  constructor
  · intro z
    unfold sigmoid
    by_cases h : 0 ≤ z
    · rw [if_pos h]
      constructor
      · positivity
      · rw [div_lt_one (by positivity)]
        linarith [Real.exp_pos (-z)]
    · rw [if_neg h]
      constructor
      · positivity
      · rw [div_lt_one (by positivity)]
        linarith [Real.exp_pos z]
  · intro cls key x h
    unfold predict
    rw [h]
    have hz : dotw zeroCls.w x = 0 := by
      simp [dotw, zeroCls]
    simp only [Option.getD_none, hz]
    unfold sigmoid
    rw [if_pos le_rfl]
    rw [neg_zero, Real.exp_zero]
    norm_num [zeroCls]

/-- Witness for C8 at a concrete fresh key and input. -/
theorem C8_witness :
    0 < sigmoid 0 ∧ sigmoid 0 < 1 ∧
    predict [] ("NQ", "ASIA") (fun _ => 0) = (1 / 2, 0) :=
  ⟨(C8_sigmoid_predict.1 0).1, (C8_sigmoid_predict.1 0).2,
   C8_sigmoid_predict.2 [] ("NQ", "ASIA") (fun _ => 0) rfl⟩

/-- Claim C10: a request whose normalized event token matches none of the
recognized kinds takes the unknown-event fallback: the reply is the plain
ok, and the open-trade index, the trades map, the learning state, and every
symbol's win/loss/breakeven counters are unchanged (at most a
zero-initialized stats entry appears for the event's symbol). -/
theorem C10_unknown_event_frame (st : ServerState) (now : Nat) (p : Payload)
    (h : selectBranch (normalize_event p.event) = Branch.unknown) :
    (webhook st now p).2 = plainOk ∧
    (webhook st now p).2.ok = true ∧
    (webhook st now p).1.open_trade = st.open_trade ∧
    (webhook st now p).1.trades = st.trades ∧
    (webhook st now p).1.learn = st.learn ∧
    (∀ sym, getStats (webhook st now p).1 sym = getStats st sym) := by
  have he : (mkCtx p).e = normalize_event p.event := rfl
  unfold webhook
  rw [he, h]
  exact ⟨rfl, rfl, ensureStats_open_trade st _, ensureStats_trades st _,
    ensureStats_learn st _, fun sym => getStats_ensureStats st _ sym⟩

/-- Witness for C10 at the concrete unrecognized event "HELLO". -/
theorem C10_witness :
    (webhook st0 7 pUnknown).2.ok = true ∧
    (webhook st0 7 pUnknown).1.open_trade = st0.open_trade ∧
    (webhook st0 7 pUnknown).1.trades = st0.trades ∧
    (webhook st0 7 pUnknown).1.learn = st0.learn :=
  (fun h => ⟨h.2.1, h.2.2.1, h.2.2.2.1, h.2.2.2.2.1⟩)
    (C10_unknown_event_frame st0 7 pUnknown (by decide))

/-- Claim C5: a closing event (stop hit, trend-flip exit, or trail exit)
with no matching open trade, or whose linked trade has no entry price, or
which carries no close price, replies ok, reports the distinct
no-linked-entry outcome, and leaves the counters, the trades map, the
open-trade index and the learning state unchanged; the handler is a total
function, so no exception is raised. -/
theorem C5_no_linked_entry (st : ServerState) (now : Nat) (p : Payload)
    (k : CloseKind) (hk : closeBranchOf p = some k)
    (h : no_link st (mkCtx p) = true) :
    (webhook st now p).2.ok = true ∧
    isNoLinkNote (webhook st now p).2 = true ∧
    (webhook st now p).1.open_trade = st.open_trade ∧
    (webhook st now p).1.trades = st.trades ∧
    (webhook st now p).1.learn = st.learn ∧
    (∀ sym, getStats (webhook st now p).1 sym = getStats st sym) := by
  obtain ⟨h1, h2, h3, h4, h5, h6⟩ := webhook_noLink_frame st now p k hk h
  exact ⟨h5, h6, h1, h2, h3, h4⟩

/-- Witness for C5: a STOP_HIT with no explicit id against the empty ledger
reports the no-linked-entry outcome and changes nothing. -/
theorem C5_witness :
    isNoLinkNote (webhook st0 5 pStopNoId).2 = true ∧
    (webhook st0 5 pStopNoId).1.trades = st0.trades ∧
    (webhook st0 5 pStopNoId).1.open_trade = st0.open_trade :=
  (fun h => ⟨h.2.1, h.2.2.2.1, h.2.2.1⟩)
    (C5_no_linked_entry st0 5 pStopNoId CloseKind.stop (by decide) (by decide))

theorem statUpd_win (x : Stats) : statUpd "WIN" x = { x with wins := x.wins + 1 } := rfl

theorem statUpd_be (x : Stats) : statUpd "BREAKEVEN" x = { x with be := x.be + 1 } := rfl

theorem statUpd_loss (x : Stats) : statUpd "LOSS" x = { x with losses := x.losses + 1 } := rfl

theorem webhook_close_link (st : ServerState) (now : Nat) (p : Payload)
    (k : CloseKind) (tid : String) (t : Trade) (entry_px pr : Rat)
    (hk : closeBranchOf p = some k)
    (hr : resolve_trade st (mkCtx p) = (some tid, some t))
    (he : t.entry = some entry_px) (hp : (mkCtx p).price = some pr) :
    webhook st now p =
      finishClose (bumpFor (ensureStats st (mkCtx p).symbol) (mkCtx p).symbol
          (classify k t entry_px pr (mkCtx p).symbol).1)
        now (mkCtx p) tid t pr (classify k t entry_px pr (mkCtx p).symbol).1
        (classify k t entry_px pr (mkCtx p).symbol).2 := by
  rw [webhook_eq_closeStep st now p k hk]
  exact closeStep_of_link k _ now (mkCtx p) tid t entry_px pr
    (by rw [resolve_ensureStats]; exact hr) he hp

theorem webhook_closed_effects (st : ServerState) (now : Nat) (p : Payload)
    (k : CloseKind) (tid : String) (t : Trade) (entry_px pr : Rat)
    (hk : closeBranchOf p = some k)
    (hr : resolve_trade st (mkCtx p) = (some tid, some t))
    (he : t.entry = some entry_px) (hp : (mkCtx p).price = some pr) :
    (webhook st now p).2.note =
      some (classify k t entry_px pr (mkCtx p).symbol).1 ∧
    (∀ sym, getStats (webhook st now p).1 sym =
      (if sym = (mkCtx p).symbol then
        statUpd (classify k t entry_px pr (mkCtx p).symbol).1 (getStats st sym)
       else getStats st sym)) ∧
    ((classify k t entry_px pr (mkCtx p).symbol).2 = Option.none →
      (webhook st now p).1.learn = st.learn) ∧
    lookupA (webhook st now p).1.open_trade (mkCtx p).symbol = Option.none := by
  rw [webhook_close_link st now p k tid t entry_px pr hk hr he hp]
  refine ⟨?_, ?_, ?_, ?_⟩
  · rw [finishClose_res]
  · intro sym
    rw [getStats_finishClose]
    by_cases hs : sym = (mkCtx p).symbol
    · subst hs
      rw [getStats_bumpFor_self, getStats_ensureStats, if_pos rfl]
    · rw [getStats_bumpFor_of_ne _ _ _ _ hs, getStats_ensureStats, if_neg hs]
  · intro hw
    rw [hw, finishClose_learn_none, bumpFor_learn, ensureStats_learn]
  · rw [finishClose_open_trade]
    exact lookupA_eraseA_self _ _

/-- Claim C1 counterexample: T1 is opened and closed by a STOP_HIT, leaving
closed-at = 2, label LOSS and one recorded loss for NQ; replaying the very
same STOP_HIT (which carries the explicit id T1) is not a no-op: the loss
counter increments again and the closed-at timestamp is overwritten, with
the reply still ok rather than an error. -/
theorem C1_counterexample :
    ((lookupA s2.trades "T1").map (fun t => t.closed_at)) = some (some 2) ∧
    ((lookupA s2.trades "T1").map (fun t => t.result)) = some (some "LOSS") ∧
    (getStats s2 "NQ").losses = 1 ∧
    (webhook s2 3 pStop).2.ok = true ∧
    isNoLinkNote (webhook s2 3 pStop).2 = false ∧
    (getStats s3 "NQ").losses = 2 ∧
    ((lookupA s3.trades "T1").map (fun t => t.closed_at)) = some (some 3) := by
  decide

/-- Claim C1 amended: once a trade has been closed (which removes the
symbol's open-trade index entry), a second closing event for that symbol
that carries no explicit trade identifier is a no-op: the trades map (hence
the trade's label, close price and closed-at timestamp), the counters, and
the learning state are unchanged, and the no-linked-entry outcome is
reported.  A second closing event that carries the trade's explicit
identifier is not guarded and re-closes the trade (see the
counterexample). -/
theorem C1_amended_no_id_noop (st : ServerState) (now : Nat) (p : Payload)
    (k : CloseKind) (hk : closeBranchOf p = some k)
    (hid : (mkCtx p).incoming_trade_id = Option.none)
    (hopen : lookupA st.open_trade (mkCtx p).symbol = Option.none) :
    (webhook st now p).1.trades = st.trades ∧
    (webhook st now p).1.open_trade = st.open_trade ∧
    (webhook st now p).1.learn = st.learn ∧
    (∀ sym, getStats (webhook st now p).1 sym = getStats st sym) ∧
    (webhook st now p).2.ok = true ∧
    isNoLinkNote (webhook st now p).2 = true := by
  have h : no_link st (mkCtx p) = true := by
    simp only [no_link, resolve_trade, hid, hopen]
  obtain ⟨h1, h2, h3, h4, h5, h6⟩ := webhook_noLink_frame st now p k hk h
  exact ⟨h2, h1, h3, h4, h5, h6⟩

/-- Witness for C1 amended: after the close in state `s2`, replaying a
STOP_HIT without an explicit id leaves the trades map unchanged and reports
the no-linked-entry outcome. -/
theorem C1_witness :
    (webhook s2 4 pStopNoId).1.trades = s2.trades ∧
    isNoLinkNote (webhook s2 4 pStopNoId).2 = true :=
  (fun h => ⟨h.1, h.2.2.2.2.2⟩)
    (C1_amended_no_id_noop s2 4 pStopNoId CloseKind.stop (by decide) (by decide)
      (by decide))

/-- Claim C9: every close path that successfully closes a linked trade pops
the symbol's entry from the open-trade index, so a subsequent closing event
for the same symbol without an explicit trade identifier (and with no
intervening entry) finds no open trade, takes the no-linked-entry path, and
leaves the trades map and the counters unchanged. -/
theorem C9_close_pops_index (st : ServerState) (now : Nat) (p : Payload)
    (k : CloseKind) (tid : String) (t : Trade) (entry_px pr : Rat)
    (hk : closeBranchOf p = some k)
    (hr : resolve_trade st (mkCtx p) = (some tid, some t))
    (he : t.entry = some entry_px) (hp : (mkCtx p).price = some pr) :
    lookupA (webhook st now p).1.open_trade (mkCtx p).symbol = Option.none ∧
    (∀ (p2 : Payload) (now2 : Nat) (k2 : CloseKind),
      closeBranchOf p2 = some k2 →
      (mkCtx p2).incoming_trade_id = Option.none →
      (mkCtx p2).symbol = (mkCtx p).symbol →
      isNoLinkNote (webhook (webhook st now p).1 now2 p2).2 = true ∧
      (webhook (webhook st now p).1 now2 p2).1.trades = (webhook st now p).1.trades ∧
      (∀ sym, getStats (webhook (webhook st now p).1 now2 p2).1 sym =
        getStats (webhook st now p).1 sym)) := by
  have hmain :=
    (webhook_closed_effects st now p k tid t entry_px pr hk hr he hp).2.2.2
  refine ⟨hmain, ?_⟩
  intro p2 now2 k2 hk2 hid2 hsym2
  have hnl : no_link (webhook st now p).1 (mkCtx p2) = true := by
    simp only [no_link, resolve_trade, hid2, hsym2, hmain]
  obtain ⟨h1, h2, h3, h4, h5, h6⟩ :=
    webhook_noLink_frame (webhook st now p).1 now2 p2 k2 hk2 hnl
  exact ⟨h6, h2, h4⟩

/-- Witness for C9: closing the linked NQ trade by a trend-flip exit empties
the open-trade index entry for NQ, and a follow-up STOP_HIT without an id
reports the no-linked-entry outcome. -/
theorem C9_witness :
    lookupA (webhook stNQ 2 pFlip).1.open_trade (mkCtx pFlip).symbol = Option.none ∧
    isNoLinkNote (webhook (webhook stNQ 2 pFlip).1 3 pStopNoId).2 = true := by
  have h := C9_close_pops_index stNQ 2 pFlip CloseKind.flip "T1" tNQ 100 (mkRat 1001 10)
    (by decide) (by decide) (by decide) (by decide)
  exact ⟨h.1, (h.2 pStopNoId 3 CloseKind.stop (by decide) (by decide) (by decide)).1⟩

/-- Claim C2 counterexample: a trend-flip exit at 100.1 on a BUY trade with
entry 100 on NQ is inside the breakeven band (|0.1| ≤ 0.25 × 1), yet the
trade is labeled WIN and the win counter increments — WIN takes precedence
over BREAKEVEN on this path, contradicting the claimed precedence. -/
theorem C2_counterexample :
    be_is_hit 100 (mkRat 1001 10) "NQ" = true ∧
    ((lookupA stNQ.trades "T1").map (fun t => t.entry)) = some (some 100) ∧
    (mkCtx pFlip).price = some (mkRat 1001 10) ∧
    closeBranchOf pFlip = some CloseKind.flip ∧
    (webhook stNQ 2 pFlip).2.note = some "WIN" ∧
    (getStats (webhook stNQ 2 pFlip).1 "NQ").wins = 1 ∧
    (getStats (webhook stNQ 2 pFlip).1 "NQ").be = 0 := by decide

/-- Claim C2 amended: for a linked close with known entry and close price
inside the breakeven band (|closePrice − entry| ≤ tick × tolerance), the
label is BREAKEVEN only as the code's paths dictate: always on the
trail-exit path; on the trend-flip path only when the directional win test
fails (WIN takes precedence); on the stop-hit path only when break-even has
been armed (else LOSS).  Whenever BREAKEVEN is assigned, only the breakeven
counter changes and the learning state is untouched. -/
theorem C2_amended_breakeven (st : ServerState) (now : Nat) (p : Payload)
    (tid : String) (t : Trade) (entry_px pr : Rat)
    (hr : resolve_trade st (mkCtx p) = (some tid, some t))
    (he : t.entry = some entry_px) (hp : (mkCtx p).price = some pr)
    (hband : be_is_hit entry_px pr (mkCtx p).symbol = true) :
    (closeBranchOf p = some CloseKind.trail →
      (webhook st now p).2.note = some "BREAKEVEN" ∧
      getStats (webhook st now p).1 (mkCtx p).symbol =
        statUpd "BREAKEVEN" (getStats st (mkCtx p).symbol) ∧
      (∀ sym, sym ≠ (mkCtx p).symbol →
        getStats (webhook st now p).1 sym = getStats st sym) ∧
      (webhook st now p).1.learn = st.learn) ∧
    (closeBranchOf p = some CloseKind.flip →
      (if t.side == "BUY" then decide (entry_px < pr)
       else decide (pr < entry_px)) = false →
      (webhook st now p).2.note = some "BREAKEVEN" ∧
      getStats (webhook st now p).1 (mkCtx p).symbol =
        statUpd "BREAKEVEN" (getStats st (mkCtx p).symbol) ∧
      (webhook st now p).1.learn = st.learn) ∧
    (closeBranchOf p = some CloseKind.flip →
      (if t.side == "BUY" then decide (entry_px < pr)
       else decide (pr < entry_px)) = true →
      (webhook st now p).2.note = some "WIN") ∧
    (closeBranchOf p = some CloseKind.stop →
      t.be_armed = true →
      (webhook st now p).2.note = some "BREAKEVEN" ∧
      getStats (webhook st now p).1 (mkCtx p).symbol =
        statUpd "BREAKEVEN" (getStats st (mkCtx p).symbol) ∧
      (webhook st now p).1.learn = st.learn) ∧
    (closeBranchOf p = some CloseKind.stop →
      t.be_armed = false →
      (webhook st now p).2.note = some "LOSS") := by
  refine ⟨?_, ?_, ?_, ?_, ?_⟩
  · intro hk
    have hcl : classify CloseKind.trail t entry_px pr (mkCtx p).symbol =
        ("BREAKEVEN", Option.none) := by
      simp [classify, hband]
    obtain ⟨h1, h2, h3, h4⟩ :=
      webhook_closed_effects st now p CloseKind.trail tid t entry_px pr hk hr he hp
    rw [hcl] at h1 h2 h3
    refine ⟨h1, ?_, ?_, h3 rfl⟩
    · rw [h2 (mkCtx p).symbol, if_pos rfl]
    · intro sym hs
      rw [h2 sym, if_neg hs]
  · intro hk hw
    have hcl : classify CloseKind.flip t entry_px pr (mkCtx p).symbol =
        ("BREAKEVEN", Option.none) := by
      unfold classify
      rw [hw]
      simp [hband]
    obtain ⟨h1, h2, h3, h4⟩ :=
      webhook_closed_effects st now p CloseKind.flip tid t entry_px pr hk hr he hp
    rw [hcl] at h1 h2 h3
    exact ⟨h1, by rw [h2 (mkCtx p).symbol, if_pos rfl], h3 rfl⟩
  · intro hk hw
    have hcl : classify CloseKind.flip t entry_px pr (mkCtx p).symbol =
        ("WIN", some true) := by
      unfold classify
      rw [hw]
      simp
    obtain ⟨h1, h2, h3, h4⟩ :=
      webhook_closed_effects st now p CloseKind.flip tid t entry_px pr hk hr he hp
    rw [hcl] at h1
    exact h1
  · intro hk harm
    have hcl : classify CloseKind.stop t entry_px pr (mkCtx p).symbol =
        ("BREAKEVEN", Option.none) := by
      simp [classify, harm, hband]
    obtain ⟨h1, h2, h3, h4⟩ :=
      webhook_closed_effects st now p CloseKind.stop tid t entry_px pr hk hr he hp
    rw [hcl] at h1 h2 h3
    exact ⟨h1, by rw [h2 (mkCtx p).symbol, if_pos rfl], h3 rfl⟩
  · intro hk harm
    have hcl : classify CloseKind.stop t entry_px pr (mkCtx p).symbol =
        ("LOSS", some false) := by
      simp [classify, harm]
    obtain ⟨h1, h2, h3, h4⟩ :=
      webhook_closed_effects st now p CloseKind.stop tid t entry_px pr hk hr he hp
    rw [hcl] at h1
    exact h1

/-- Witness for C2 amended: a trail exit at 100.1 on the linked NQ BUY trade
with entry 100 lands in the band and is labeled BREAKEVEN, bumping only the
breakeven counter and leaving the learning state unchanged. -/
theorem C2_witness :
    (webhook stNQ 2 pTrailBE).2.note = some "BREAKEVEN" ∧
    getStats (webhook stNQ 2 pTrailBE).1 (mkCtx pTrailBE).symbol =
      statUpd "BREAKEVEN" (getStats stNQ (mkCtx pTrailBE).symbol) ∧
    (webhook stNQ 2 pTrailBE).1.learn = stNQ.learn := by
  have h := (C2_amended_breakeven stNQ 2 pTrailBE "T1" tNQ 100 (mkRat 1001 10)
    (by decide) (by decide) (by decide) (by decide)).1 (by decide)
  exact ⟨h.1, h.2.1, h.2.2.2⟩

/-- Claim C3 counterexample: a trade whose stored side is "N/A" (UNKNOWN) is
closed by a trail exit at 90, far below its entry 100 and outside the
breakeven band; the code labels it WIN and increments the win counter,
contradicting "a trade whose side is UNKNOWN is never labeled WIN". -/
theorem C3_counterexample :
    ((lookupA stNA.trades "T1").map (fun t => t.side)) = some "N/A" ∧
    be_is_hit 100 90 "NQ" = false ∧
    (webhook stNA 2 pTrail).2.note = some "WIN" ∧
    (getStats (webhook stNA 2 pTrail).1 "NQ").wins = 1 := by decide

/-- Claim C3 amended: on the trend-flip and trail-exit paths, outside the
breakeven band, a trade whose stored side is BUY is labeled WIN exactly when
closePrice > entry, and a trade with any other stored side — SELL or the
undetected "N/A" — is labeled WIN exactly when closePrice < entry (UNKNOWN
is treated like SHORT, not "never wins"); the stop-hit path never assigns
WIN. -/
theorem C3_amended_win_rule (st : ServerState) (now : Nat) (p : Payload)
    (tid : String) (t : Trade) (entry_px pr : Rat)
    (hr : resolve_trade st (mkCtx p) = (some tid, some t))
    (he : t.entry = some entry_px) (hp : (mkCtx p).price = some pr)
    (hband : be_is_hit entry_px pr (mkCtx p).symbol = false) :
    (closeBranchOf p = some CloseKind.flip →
      ((webhook st now p).2.note = some "WIN" ↔
        (if t.side == "BUY" then decide (entry_px < pr)
         else decide (pr < entry_px)) = true)) ∧
    (closeBranchOf p = some CloseKind.trail →
      ((webhook st now p).2.note = some "WIN" ↔
        (if t.side == "BUY" then decide (entry_px < pr)
         else decide (pr < entry_px)) = true)) ∧
    (closeBranchOf p = some CloseKind.stop →
      (webhook st now p).2.note = some "LOSS") := by
  refine ⟨?_, ?_, ?_⟩
  · intro hk
    obtain ⟨h1, h2, h3, h4⟩ :=
      webhook_closed_effects st now p CloseKind.flip tid t entry_px pr hk hr he hp
    cases hw : (if t.side == "BUY" then decide (entry_px < pr)
        else decide (pr < entry_px)) with
    | true =>
      have hcl : classify CloseKind.flip t entry_px pr (mkCtx p).symbol =
          ("WIN", some true) := by
        unfold classify
        rw [hw]
        simp
      rw [hcl] at h1
      simp [h1]
    | false =>
      have hcl : classify CloseKind.flip t entry_px pr (mkCtx p).symbol =
          ("LOSS", some false) := by
        unfold classify
        rw [hw]
        simp [hband]
      rw [hcl] at h1
      simp [h1]
  · intro hk
    obtain ⟨h1, h2, h3, h4⟩ :=
      webhook_closed_effects st now p CloseKind.trail tid t entry_px pr hk hr he hp
    cases hw : (if t.side == "BUY" then decide (entry_px < pr)
        else decide (pr < entry_px)) with
    | true =>
      have hcl : classify CloseKind.trail t entry_px pr (mkCtx p).symbol =
          ("WIN", some true) := by
        unfold classify
        rw [hw]
        simp [hband]
      rw [hcl] at h1
      simp [h1]
    | false =>
      have hcl : classify CloseKind.trail t entry_px pr (mkCtx p).symbol =
          ("LOSS", some false) := by
        unfold classify
        rw [hw]
        simp [hband]
      rw [hcl] at h1
      simp [h1]
  · intro hk
    obtain ⟨h1, h2, h3, h4⟩ :=
      webhook_closed_effects st now p CloseKind.stop tid t entry_px pr hk hr he hp
    have hcl : classify CloseKind.stop t entry_px pr (mkCtx p).symbol =
        ("LOSS", some false) := by simp [classify, hband]
    rw [hcl] at h1
    exact h1

/-- Witness for C3 amended: the side-less NQ trade closed by a trail exit at
90 (outside the band, below entry) is labeled WIN by the UNKNOWN-as-SHORT
rule. -/
theorem C3_witness :
    (webhook stNA 3 pTrail).2.note = some "WIN" := by
  have h := (C3_amended_win_rule stNA 3 pTrail "T1" tNA 100 90
    (by decide) (by decide) (by decide) (by decide)).2.1 (by decide)
  exact h.mpr (by decide)

/-- Claim C6 counterexample: the open trade T1 was opened on timeframe "5";
a STOP_HIT for the same symbol on timeframe "15" with no explicit trade id
still resolves to T1 (the open-trade index is keyed by symbol alone, not by
an (instrument, timeframe, session) key) and closes it as a LOSS. -/
theorem C6_counterexample :
    (mkCtx pStop15).incoming_trade_id = Option.none ∧
    (mkCtx pStop15).tf = "15" ∧
    ((resolve_trade stNQ (mkCtx pStop15)).2.map (fun t => t.tf)) = some "5" ∧
    (webhook stNQ 2 pStop15).2.note = some "LOSS" ∧
    (getStats (webhook stNQ 2 pStop15).1 "NQ").losses = 1 := by decide

/-- Claim C6 amended: trade resolution for a closing event uses the explicit
trade identifier when the event carries one; otherwise it uses the
currently-open trade id recorded for the event's symbol alone — the
timeframe (and any session notion) is not part of the key; if the resolved
id is absent from the trades map, or there is no id at all, the resolution
yields none. -/
theorem C6_amended_resolution (st : ServerState) (c : Ctx) :
    (∀ i, c.incoming_trade_id = some i →
      resolve_trade st c = (some i, lookupA st.trades i)) ∧
    (c.incoming_trade_id = Option.none →
      (resolve_trade st c).1 = lookupA st.open_trade c.symbol) ∧
    (∀ tf2, resolve_trade st { c with tf := tf2 } = resolve_trade st c) ∧
    ((resolve_trade st c).1 = Option.none → (resolve_trade st c).2 = Option.none) ∧
    (∀ tid, (resolve_trade st c).1 = some tid →
      (resolve_trade st c).2 = lookupA st.trades tid) := by
  refine ⟨?_, ?_, ?_, ?_, ?_⟩
  · intro i hi
    simp [resolve_trade, hi]
  · intro hi
    simp [resolve_trade, hi]
  · intro tf2
    rfl
  · intro h1
    unfold resolve_trade at h1 ⊢
    cases hio : c.incoming_trade_id with
    | some i => simp [hio] at h1
    | none =>
      simp only [hio] at h1 ⊢
      rw [h1]
  · intro tid h1
    unfold resolve_trade at h1 ⊢
    cases hio : c.incoming_trade_id with
    | some i =>
      simp only [hio] at h1 ⊢
      rw [Option.some_inj.mp h1]
    | none =>
      simp only [hio] at h1 ⊢
      rw [h1]

/-- Witness for C6 amended: with no explicit id, the resolved id for the
timeframe-15 close is the symbol's open-trade entry, and resolution ignores
the timeframe. -/
theorem C6_witness :
    (resolve_trade stNQ (mkCtx pStop15)).1 =
      lookupA stNQ.open_trade (mkCtx pStop15).symbol ∧
    resolve_trade stNQ { mkCtx pStop15 with tf := "99" } =
      resolve_trade stNQ (mkCtx pStop15) :=
  ⟨(C6_amended_resolution stNQ (mkCtx pStop15)).2.1 (by decide),
   (C6_amended_resolution stNQ (mkCtx pStop15)).2.2.1 "99"⟩
